import Mathlib

/-!
A shallow embedding of the printer-monitoring job tracker
(`Job tracking app/main.py`): the incremental CSV reader and per-printer
aggregator (`WatchdogCSVMonitor.process_csv`), the roll progress state
machine (`RollWidget`), and the roll materialization of a job
(`JobDetailWidget.init_ui`).  Python dicts are modelled as association
lists preserving insertion order; machine reads that may raise are
modelled with `Option`.
-/

namespace PrinterApp

/-- A CSV record as produced by `csv.DictReader`: field name to field value. -/
abbrev Row := List (String × String)

/-- Per-printer counters, in Python a dict printer name to pass/fail dict;
here an association list of (printer, (pass count, fail count)). -/
abbrev PFList := List (String × (Nat × Nat))

/-- Python `d.get(k)` membership-respecting lookup on an association list
(first matching key wins, as in a dict without duplicate keys). -/
def lookupA {α : Type} : List (String × α) → String → Option α
  | [], _ => none
  | (k, v) :: t, q => if k = q then some v else lookupA t q

/-- Python `d[k] = v`: overwrite in place when the key is present, append at
the end otherwise (dicts preserve insertion order). -/
def setA {α : Type} : List (String × α) → String → α → List (String × α)
  | [], q, v => [(q, v)]
  | (k, w) :: t, q, v => if k = q then (k, v) :: t else (k, w) :: setA t q v

/-- Python `if k not in d: d[k] = v`. -/
def initA {α : Type} (d : List (String × α)) (q : String) (v : α) :
    List (String × α) :=
  if (lookupA d q).isSome then d else setA d q v

/-- Python `d[q]["pass"] += dp; d[q]["fail"] += df` for a key known to be
present (the code only increments after ensuring presence; an absent key
would be a `KeyError`, modelled as leaving the list unchanged). -/
def addPF (d : PFList) (q : String) (dp df : Nat) : PFList :=
  match lookupA d q with
  | none => d
  | some (p, f) => setA d q (p + dp, f + df)

/-- The whitespace characters removed by Python `str.strip()`:
space, tab, newline, carriage return, vertical tab, form feed. -/
def isPySpace (c : Char) : Bool :=
  c = ' ' || c = '\t' || c = '\n' || c = '\r' ||
  c = Char.ofNat 11 || c = Char.ofNat 12

/-- Python `str.strip()`: drop leading and trailing whitespace. -/
def pyStrip (s : String) : String :=
  String.mk (((s.data.dropWhile isPySpace).reverse.dropWhile isPySpace).reverse)

/-- Python `row.get("Failure Message", "").strip()` (main.py line 153). -/
def failureMsg (r : Row) : String :=
  pyStrip ((lookupA r "Failure Message").getD "")

/-- Python `row.get("Printer Name", "Printer_1").strip()` (main.py line 154). -/
def printerOf (r : Row) : String :=
  pyStrip ((lookupA r "Printer Name").getD "Printer_1")

/-- The body of the per-row loop of `process_csv` (main.py lines 152-160):
ensure the printer has an entry in `new_counts`, then bump pass or fail on
an exact string match of the stripped "Failure Message" value. -/
def stepRow (nc : PFList) (row : Row) : PFList :=
  let msg := failureMsg row
  let printer := printerOf row
  let nc1 := initA nc printer (0, 0)
  if msg = "Pass (Label)" then addPF nc1 printer 1 0
  else if msg = "Fail (Label)" then addPF nc1 printer 0 1
  else nc1

/-- In-memory state of `WatchdogCSVMonitor`: `file_row_counts` maps a csv
path to the number of rows already consumed, `cumulative_counts` maps a
printer name to its lifetime pass/fail counters. -/
structure MonitorState where
  file_row_counts : List (String × Nat)
  cumulative_counts : PFList
deriving DecidableEq

/-- The monitor starts with both dicts empty (main.py lines 127-128). -/
def initialState : MonitorState := ⟨[], []⟩

/-- One iteration of the merge loop of `process_csv` (main.py lines
166-170): ensure the printer exists in `cumulative_counts`, then add the
batch deltas. -/
def mergeEntry (cc : PFList) (e : String × (Nat × Nat)) : PFList :=
  addPF (initA cc e.1 (0, 0)) e.1 e.2.1 e.2.2

/-- The whole merge loop `for printer, counts in new_counts.items()`. -/
def mergePF (cc nc : PFList) : PFList := nc.foldl mergeEntry cc

/-- One invocation of `WatchdogCSVMonitor.process_csv` (main.py lines
140-173).  `read = some rows` models a successful
`list(csv.DictReader(open(csv_path)))`; `read = none` models any exception
raised inside the `try` block (locked or partially written file), after
which only the pre-`try` cursor initialization has happened.  The emitted
signal carries no state and is not modelled. -/
def process_csv (s : MonitorState) (csv_path : String)
    (read : Option (List Row)) : MonitorState :=
  let frc := initA s.file_row_counts csv_path 0
  match read with
  | none => { s with file_row_counts := frc }
  | some rows =>
    let total_rows := rows.length
    let last_count := (lookupA frc csv_path).getD 0
    let new_rows := rows.drop last_count
    let new_counts := new_rows.foldl stepRow []
    { file_row_counts := setA frc csv_path total_rows,
      cumulative_counts := mergePF s.cumulative_counts new_counts }

/-- The cursor the monitor holds for a path (0 before the first entry is
created, as the code initializes it). -/
def cursorOf (s : MonitorState) (p : String) : Nat :=
  (lookupA s.file_row_counts p).getD 0

/-- Pass/fail counters read out of a `PFList`, defaulting to (0, 0). -/
def pfOf (cc : PFList) (k : String) : Nat × Nat :=
  (lookupA cc k).getD (0, 0)

def passOf (cc : PFList) (k : String) : Nat := (pfOf cc k).1

def failOf (cc : PFList) (k : String) : Nat := (pfOf cc k).2

/-- Number of rows of a record list that parse as a pass event for printer
`k` under the row classification of the code. -/
def passRows (rows : List Row) (k : String) : Nat :=
  rows.countP (fun r => decide (printerOf r = k ∧ failureMsg r = "Pass (Label)"))

/-- Number of rows that parse as a fail event for printer `k`. -/
def failRows (rows : List Row) (k : String) : Nat :=
  rows.countP (fun r => decide (printerOf r = k ∧ failureMsg r = "Fail (Label)"))

/-- A sequence of successful `process_csv` invocations for one path, fed
with the file content observed at each notification, starting from the
monitor's initial state. -/
def runNotifications (path : String) (contents : List (List Row)) :
    MonitorState :=
  contents.foldl (fun s c => process_csv s path (some c)) initialState

/-- Roll states of `RollWidget` (main.py line 188). -/
inductive RollState
  | idle
  | running
  | paused
  | stopped
  | completed
deriving DecidableEq

/-- The model-relevant fields of a `RollWidget` (main.py lines 179-193). -/
structure Roll where
  job_id : Nat
  roll_number : Nat
  labels_goal : Nat
  printer_name : String
  current_progress : Int
  state : RollState
  baseline_pass : Option Nat
  baseline_fail : Option Nat
deriving DecidableEq

/-- The method `RollWidget.start_roll` (main.py lines 248-256): guarded by
`state != "running"`; sets the state to running and clears both baselines. -/
def start_roll (r : Roll) : Roll :=
  if r.state ≠ RollState.running then
    { r with state := RollState.running,
             baseline_pass := none, baseline_fail := none }
  else r

/-- The method `RollWidget.update_progress` (main.py lines 308-328), applied to the
values `cumulative_data.get("pass", 0)` and `cumulative_data.get("fail", 0)`. -/
def update_progress (r : Roll) (cpass cfail : Nat) : Roll :=
  if r.state ≠ RollState.running then r
  else
    match r.baseline_pass with
    | none =>
      { r with baseline_pass := some cpass, baseline_fail := some cfail }
    | some bp =>
      let delta_pass : Int := (cpass : Int) - (bp : Int)
      let current : Int := min delta_pass (r.labels_goal : Int)
      let r1 := { r with current_progress := current }
      if current ≥ (r.labels_goal : Int) then
        { r1 with state := RollState.completed }
      else r1

/-- Python `math.ceil(quantity / labels_per_roll)` (main.py line 346), with Python 3
true division; exact for the spinbox-bounded ranges the app allows. -/
def total_rolls (quantity labels_per_roll : Nat) : ℤ :=
  ⌈(quantity : ℚ) / (labels_per_roll : ℚ)⌉

/-- The rolls materialized by `JobDetailWidget.init_ui` (main.py lines
346-352): one `RollWidget` per `roll_num in range(1, total_rolls + 1)`,
each constructed with `labels_goal = self.job[5]`, the job's
labels-per-roll value. -/
def make_rolls (job_id quantity labels_per_roll : Nat) (printer : String) :
    List Roll :=
  (List.range' 1 (total_rolls quantity labels_per_roll).toNat).map
    (fun n =>
      { job_id := job_id, roll_number := n, labels_goal := labels_per_roll,
        printer_name := printer, current_progress := 0,
        state := RollState.idle, baseline_pass := none,
        baseline_fail := none })

/-- A pass row for printer "P1". -/
def rowP : Row := [("Printer Name", "P1"), ("Failure Message", "Pass (Label)")]

/-- A fail row for printer "P1". -/
def rowF : Row := [("Printer Name", "P1"), ("Failure Message", "Fail (Label)")]

/-- A roll in the Paused state with some progress. -/
def pausedRoll : Roll :=
  { job_id := 1, roll_number := 1, labels_goal := 100, printer_name := "P1",
    current_progress := 40, state := RollState.paused,
    baseline_pass := some 3, baseline_fail := some 1 }

/-- A roll that just entered Running and has no baseline yet. -/
def freshRunningRoll : Roll :=
  { job_id := 1, roll_number := 1, labels_goal := 100, printer_name := "P1",
    current_progress := 0, state := RollState.running,
    baseline_pass := none, baseline_fail := none }

/-- A Running roll with a captured baseline of pass 2, fail 0. -/
def runningRoll : Roll :=
  { job_id := 1, roll_number := 1, labels_goal := 100, printer_name := "P1",
    current_progress := 0, state := RollState.running,
    baseline_pass := some 2, baseline_fail := some 0 }

/-- An Idle roll, as freshly constructed. -/
def idleRoll : Roll :=
  { job_id := 1, roll_number := 1, labels_goal := 100, printer_name := "P1",
    current_progress := 0, state := RollState.idle,
    baseline_pass := none, baseline_fail := none }

instance : Inhabited Roll := ⟨idleRoll⟩

/-- A Stopped roll. -/
def stoppedRoll : Roll :=
  { job_id := 1, roll_number := 2, labels_goal := 100, printer_name := "P1",
    current_progress := 40, state := RollState.stopped,
    baseline_pass := some 3, baseline_fail := some 1 }

/-- A monitor state whose cursor for "log.csv" (2) exceeds the row count
of the shrunken file used in the C4 scenario. -/
def shrunkState : MonitorState :=
  ⟨[("log.csv", 2)], [("P1", (5, 1))]⟩

/-- The classification field named by the spec sentence behind C7.
Modelled from the spec: the record's "Outcome Message" value, stripped —
the code itself reads "Failure Message" instead. -/
def outcomeMsgSpec (r : Row) : String :=
  pyStrip ((lookupA r "Outcome Message").getD "")

/-- A row carrying the pass sentinel under "Outcome Message" only. -/
def outcomeOnlyRow : Row :=
  [("Outcome Message", "Pass (Label)"), ("Printer Name", "P1")]

/-- A pass row whose "Printer Name" field is present but whitespace. -/
def blankPrinterRow : Row :=
  [("Printer Name", "   "), ("Failure Message", "Pass (Label)")]

/-- The pass/fail event a single row contributes for printer `k`. -/
def rowDelta (r : Row) (k : String) : Nat × Nat :=
  if printerOf r = k then
    (if failureMsg r = "Pass (Label)" then (1, 0)
     else if failureMsg r = "Fail (Label)" then (0, 1)
     else (0, 0))
  else (0, 0)

/-- Total of all entries of a `PFList` stored under key `k` (coincides with
`pfOf` when keys are unique, but needs no uniqueness bookkeeping). -/
def pfSum : PFList → String → Nat × Nat
  | [], _ => (0, 0)
  | (q, v) :: t, k => (if q = k then v else (0, 0)) + pfSum t k

/-- The invariant carried along a sequence of notifications for one path:
the stored cursor equals the length of the last content seen, and every
printer's cumulative counters equal the event sum of that content. -/
def Tracks (s : MonitorState) (path : String) (c : List Row) : Prop :=
  lookupA s.file_row_counts path = some c.length
  ∧ ∀ k, pfOf s.cumulative_counts k = (c.map (fun r => rowDelta r k)).sum

theorem lookupA_setA_self {α : Type} (d : List (String × α)) (q : String)
    (v : α) : lookupA (setA d q v) q = some v := by
  induction d with
  | nil => simp [setA, lookupA]
  | cons e t ih =>
    obtain ⟨k, w⟩ := e
    by_cases h : k = q
    · subst h; simp [setA, lookupA]
    · simp [setA, lookupA, h, ih]

theorem lookupA_setA_ne {α : Type} (d : List (String × α)) (q k : String)
    (v : α) (h : k ≠ q) : lookupA (setA d q v) k = lookupA d k := by
  have hqk : ¬q = k := fun hh => h hh.symm
  induction d with
  | nil => simp [setA, lookupA, hqk]
  | cons e t ih =>
    obtain ⟨k0, w⟩ := e
    by_cases h0 : k0 = q
    · subst h0
      simp [setA, lookupA, hqk]
    · simp only [setA, if_neg h0]
      by_cases hk : k0 = k <;> simp [lookupA, hk, ih]

theorem setA_lookupA_eq {α : Type} (d : List (String × α)) (q : String)
    (v : α) (h : lookupA d q = some v) : setA d q v = d := by
  induction d with
  | nil => simp [lookupA] at h
  | cons e t ih =>
    obtain ⟨k, w⟩ := e
    by_cases h0 : k = q
    · subst h0
      have hw : w = v := by simpa [lookupA] using h
      subst hw
      simp [setA]
    · simp only [lookupA, if_neg h0] at h
      simp [setA, h0, ih h]

theorem setA_of_lookupA_none {α : Type} (d : List (String × α)) (q : String)
    (v : α) (h : lookupA d q = none) : setA d q v = d ++ [(q, v)] := by
  induction d with
  | nil => simp [setA]
  | cons e t ih =>
    obtain ⟨k, w⟩ := e
    by_cases h0 : k = q
    · subst h0; simp [lookupA] at h
    · simp only [lookupA, if_neg h0] at h
      simp [setA, h0, ih h]

theorem lookupA_initA_self_isSome {α : Type} (d : List (String × α))
    (q : String) (v : α) : (lookupA (initA d q v) q).isSome := by
  by_cases h : (lookupA d q).isSome
  · simp [initA, h]
  · simp [initA, h, lookupA_setA_self]

theorem lookupA_initA_ne {α : Type} (d : List (String × α)) (q k : String)
    (v : α) (h : k ≠ q) : lookupA (initA d q v) k = lookupA d k := by
  by_cases hs : (lookupA d q).isSome
  · simp [initA, hs]
  · simp only [initA, hs, if_false]
    exact lookupA_setA_ne d q k v h

theorem getD_lookupA_initA {α : Type} (d : List (String × α)) (q : String)
    (v : α) : (lookupA (initA d q v) q).getD v = (lookupA d q).getD v := by
  by_cases h : (lookupA d q).isSome
  · simp [initA, h]
  · rw [Option.not_isSome_iff_eq_none] at h
    simp [initA, h, lookupA_setA_self]

theorem pfOf_initA (d : PFList) (q k : String) :
    pfOf (initA d q (0, 0)) k = pfOf d k := by
  by_cases hk : k = q
  · subst hk
    by_cases h : (lookupA d k).isSome
    · simp [pfOf, initA, h]
    · rw [Option.not_isSome_iff_eq_none] at h
      simp [pfOf, initA, h, lookupA_setA_self]
  · unfold pfOf
    rw [lookupA_initA_ne d q k _ hk]

theorem pfOf_addPF (d : PFList) (q k : String) (dp df : Nat)
    (h : (lookupA d q).isSome) :
    pfOf (addPF d q dp df) k
      = pfOf d k + (if q = k then (dp, df) else (0, 0)) := by
  obtain ⟨⟨p, f⟩, hpf⟩ := Option.isSome_iff_exists.mp h
  unfold addPF
  rw [hpf]
  by_cases hk : q = k
  · subst hk
    unfold pfOf
    rw [lookupA_setA_self, hpf]
    simp [Prod.mk_add_mk]
  · unfold pfOf
    rw [lookupA_setA_ne d q k _ (fun hh => hk hh.symm)]
    simp [hk]

theorem pfSum_append (d e : PFList) (k : String) :
    pfSum (d ++ e) k = pfSum d k + pfSum e k := by
  induction d with
  | nil => simp [pfSum]
  | cons x t ih =>
    obtain ⟨q, v⟩ := x
    simp [pfSum, ih, add_assoc]

theorem pfSum_initA (d : PFList) (q k : String) :
    pfSum (initA d q (0, 0)) k = pfSum d k := by
  by_cases h : (lookupA d q).isSome
  · simp [initA, h]
  · rw [Option.not_isSome_iff_eq_none] at h
    simp only [initA, h, Option.isSome_none, Bool.false_eq_true, if_false]
    rw [setA_of_lookupA_none d q _ h, pfSum_append]
    simp [pfSum]

theorem pfSum_addPF (d : PFList) (q k : String) (dp df : Nat)
    (h : (lookupA d q).isSome) :
    pfSum (addPF d q dp df) k
      = pfSum d k + (if q = k then (dp, df) else (0, 0)) := by
  induction d with
  | nil => simp [lookupA] at h
  | cons e t ih =>
    obtain ⟨k0, ⟨p0, f0⟩⟩ := e
    by_cases h0 : k0 = q
    · subst h0
      unfold addPF
      simp only [lookupA, if_pos rfl]
      simp only [setA, if_pos rfl]
      by_cases hk : k0 = k
      · subst hk
        simp only [pfSum, if_pos rfl]
        simp [Prod.ext_iff, Prod.fst_add, Prod.snd_add]
        constructor <;> omega
      · simp [pfSum, hk]
    · simp only [lookupA, if_neg h0] at h
      have hstep : addPF ((k0, (p0, f0)) :: t) q dp df
          = (k0, (p0, f0)) :: addPF t q dp df := by
        unfold addPF
        simp only [lookupA, if_neg h0]
        obtain ⟨⟨p, f⟩, hpf⟩ := Option.isSome_iff_exists.mp h
        rw [hpf]
        simp [setA, h0]
      rw [hstep]
      simp [pfSum, ih h, add_assoc]

theorem pfOf_mergeEntry (cc : PFList) (e : String × (Nat × Nat))
    (k : String) :
    pfOf (mergeEntry cc e) k
      = pfOf cc k + (if e.1 = k then e.2 else (0, 0)) := by
  obtain ⟨q, dp, df⟩ := e
  unfold mergeEntry
  rw [pfOf_addPF _ _ _ _ _ (lookupA_initA_self_isSome cc q (0, 0)),
    pfOf_initA]

theorem pfOf_mergePF (cc nc : PFList) (k : String) :
    pfOf (mergePF cc nc) k = pfOf cc k + pfSum nc k := by
  induction nc generalizing cc with
  | nil => simp [mergePF, pfSum]
  | cons e t ih =>
    obtain ⟨q, v⟩ := e
    show pfOf (mergePF (mergeEntry cc (q, v)) t) k = _
    rw [ih, pfOf_mergeEntry]
    simp [pfSum, add_assoc]

theorem pfSum_stepRow (nc : PFList) (r : Row) (k : String) :
    pfSum (stepRow nc r) k = pfSum nc k + rowDelta r k := by
  unfold stepRow rowDelta
  by_cases h1 : failureMsg r = "Pass (Label)"
  · rw [if_pos h1,
      pfSum_addPF _ _ _ _ _
        (lookupA_initA_self_isSome nc (printerOf r) (0, 0)),
      pfSum_initA]
    by_cases h2 : printerOf r = k <;> simp [h1, h2]
  · by_cases h2 : failureMsg r = "Fail (Label)"
    · rw [if_neg h1, if_pos h2,
        pfSum_addPF _ _ _ _ _
          (lookupA_initA_self_isSome nc (printerOf r) (0, 0)),
        pfSum_initA]
      by_cases h3 : printerOf r = k <;> simp [h1, h2, h3]
    · rw [if_neg h1, if_neg h2, pfSum_initA]
      by_cases h3 : printerOf r = k <;> simp [h1, h2, h3]

theorem pfSum_foldl_stepRow (rows : List Row) (nc : PFList) (k : String) :
    pfSum (rows.foldl stepRow nc) k
      = pfSum nc k + (rows.map (fun r => rowDelta r k)).sum := by
  induction rows generalizing nc with
  | nil => simp
  | cons r t ih =>
    simp only [List.foldl_cons, List.map_cons, List.sum_cons]
    rw [ih, pfSum_stepRow]
    simp [add_assoc]

theorem rowDelta_fst (r : Row) (k : String) :
    (rowDelta r k).1
      = if printerOf r = k ∧ failureMsg r = "Pass (Label)" then 1 else 0 := by
  unfold rowDelta
  by_cases h1 : printerOf r = k
  · by_cases h2 : failureMsg r = "Pass (Label)"
    · simp [h1, h2]
    · by_cases h3 : failureMsg r = "Fail (Label)" <;> simp [h1, h2, h3]
  · simp [h1]

theorem rowDelta_snd (r : Row) (k : String) :
    (rowDelta r k).2
      = if printerOf r = k ∧ failureMsg r = "Fail (Label)" then 1 else 0 := by
  unfold rowDelta
  by_cases h1 : printerOf r = k
  · by_cases h2 : failureMsg r = "Pass (Label)"
    · simp [h1, h2]
    · by_cases h3 : failureMsg r = "Fail (Label)" <;> simp [h1, h2, h3]
  · simp [h1]

theorem sum_rowDelta (rows : List Row) (k : String) :
    ((rows.map (fun r => rowDelta r k)).sum).1 = passRows rows k
    ∧ ((rows.map (fun r => rowDelta r k)).sum).2 = failRows rows k := by
  induction rows with
  | nil => simp [passRows, failRows]
  | cons r t ih =>
    obtain ⟨ih1, ih2⟩ := ih
    simp only [passRows, failRows] at ih1 ih2 ⊢
    simp only [List.map_cons, List.sum_cons, Prod.fst_add, Prod.snd_add,
      List.countP_cons, decide_eq_true_eq]
    rw [ih1, ih2, rowDelta_fst, rowDelta_snd]
    constructor <;> omega

theorem pfOf_stepRow (nc : PFList) (r : Row) (k : String) :
    pfOf (stepRow nc r) k = pfOf nc k + rowDelta r k := by
  unfold stepRow rowDelta
  by_cases h1 : failureMsg r = "Pass (Label)"
  · rw [if_pos h1,
      pfOf_addPF _ _ _ _ _
        (lookupA_initA_self_isSome nc (printerOf r) (0, 0)),
      pfOf_initA]
    by_cases h2 : printerOf r = k <;> simp [h1, h2]
  · by_cases h2 : failureMsg r = "Fail (Label)"
    · rw [if_neg h1, if_pos h2,
        pfOf_addPF _ _ _ _ _
          (lookupA_initA_self_isSome nc (printerOf r) (0, 0)),
        pfOf_initA]
      by_cases h3 : printerOf r = k <;> simp [h1, h2, h3]
    · rw [if_neg h1, if_neg h2, pfOf_initA]
      by_cases h3 : printerOf r = k <;> simp [h1, h2, h3]

theorem lookupA_addPF_isSome (d : PFList) (q : String) (dp df : Nat)
    (h : (lookupA d q).isSome) :
    (lookupA (addPF d q dp df) q).isSome := by
  obtain ⟨⟨p, f⟩, hpf⟩ := Option.isSome_iff_exists.mp h
  unfold addPF
  rw [hpf, lookupA_setA_self]
  rfl

theorem lookupA_stepRow_isSome (nc : PFList) (r : Row) :
    (lookupA (stepRow nc r) (printerOf r)).isSome := by
  have h1 : (lookupA (initA nc (printerOf r) (0, 0)) (printerOf r)).isSome :=
    lookupA_initA_self_isSome nc (printerOf r) (0, 0)
  unfold stepRow
  by_cases hA : failureMsg r = "Pass (Label)"
  · rw [if_pos hA]
    exact lookupA_addPF_isSome _ _ _ _ h1
  · by_cases hB : failureMsg r = "Fail (Label)"
    · rw [if_neg hA, if_pos hB]
      exact lookupA_addPF_isSome _ _ _ _ h1
    · rw [if_neg hA, if_neg hB]
      exact h1

theorem lookupA_process_some (s : MonitorState) (path : String)
    (rows : List Row) :
    lookupA (process_csv s path (some rows)).file_row_counts path
      = some rows.length := by
  show lookupA (setA (initA s.file_row_counts path 0) path rows.length) path
      = some rows.length
  exact lookupA_setA_self _ _ _

theorem cursorOf_process_some (s : MonitorState) (path : String)
    (rows : List Row) :
    cursorOf (process_csv s path (some rows)) path = rows.length := by
  unfold cursorOf
  rw [lookupA_process_some]
  rfl

theorem pfOf_process_some (s : MonitorState) (path : String)
    (rows : List Row) (k : String) :
    pfOf (process_csv s path (some rows)).cumulative_counts k
      = pfOf s.cumulative_counts k
        + ((rows.drop (cursorOf s path)).map (fun r => rowDelta r k)).sum := by
  show pfOf (mergePF s.cumulative_counts
      ((rows.drop ((lookupA (initA s.file_row_counts path 0) path).getD 0)).foldl
        stepRow [])) k = _
  rw [pfOf_mergePF, pfSum_foldl_stepRow, getD_lookupA_initA,
    show pfSum [] k = 0 from rfl, zero_add]
  rfl

theorem process_none_cumulative (s : MonitorState) (path : String) :
    (process_csv s path none).cumulative_counts = s.cumulative_counts := rfl

theorem cursorOf_process_none (s : MonitorState) (path : String) :
    cursorOf (process_csv s path none) path = cursorOf s path := by
  show (lookupA (initA s.file_row_counts path 0) path).getD 0 = _
  exact getD_lookupA_initA _ _ _

theorem process_none_of_isSome (s : MonitorState) (path : String)
    (h : (lookupA s.file_row_counts path).isSome) :
    process_csv s path none = s := by
  unfold process_csv
  simp [initA, h]

theorem process_some_noop (s : MonitorState) (path : String) (rows : List Row)
    (hcur : lookupA s.file_row_counts path = some rows.length) :
    process_csv s path (some rows) = s := by
  obtain ⟨frc, cc⟩ := s
  simp only at hcur
  have hinit : initA frc path 0 = frc := by
    simp [initA, hcur]
  show (⟨setA (initA frc path 0) path rows.length,
      mergePF cc
        ((rows.drop ((lookupA (initA frc path 0) path).getD 0)).foldl
          stepRow [])⟩ : MonitorState) = ⟨frc, cc⟩
  rw [hinit, hcur]
  show (⟨setA frc path rows.length,
      mergePF cc ((rows.drop rows.length).foldl stepRow [])⟩ : MonitorState)
    = ⟨frc, cc⟩
  rw [List.drop_length, setA_lookupA_eq frc path rows.length hcur]
  rfl

theorem tracks_first (path : String) (c : List Row) :
    Tracks (process_csv initialState path (some c)) path c := by
  constructor
  · exact lookupA_process_some _ _ _
  · intro k
    rw [pfOf_process_some]
    have h0 : cursorOf initialState path = 0 := rfl
    rw [h0, show pfOf initialState.cumulative_counts k = 0 from rfl, zero_add]
    rfl

theorem tracks_step (s : MonitorState) (path : String) (c c' : List Row)
    (hs : Tracks s path c) (hext : ∃ t : List Row, c ++ t = c') :
    Tracks (process_csv s path (some c')) path c' := by
  obtain ⟨hcur, hcnt⟩ := hs
  obtain ⟨t, rfl⟩ := hext
  constructor
  · exact lookupA_process_some _ _ _
  · intro k
    rw [pfOf_process_some]
    have hc : cursorOf s path = c.length := by
      unfold cursorOf
      rw [hcur]
      rfl
    rw [hc, List.drop_left, hcnt k, List.map_append, List.sum_append]

theorem tracks_run (path : String) (rest : List (List Row)) :
    ∀ (c : List Row) (s : MonitorState), Tracks s path c →
      List.Chain' (fun a b => ∃ t : List Row, a ++ t = b) (c :: rest) →
      Tracks (rest.foldl (fun s' c' => process_csv s' path (some c')) s) path
        (((c :: rest).getLast?).getD []) := by
  induction rest with
  | nil =>
    intro c s hs _
    simpa using hs
  | cons c' rest' ih =>
    intro c s hs hchain
    rw [List.chain'_cons] at hchain
    obtain ⟨hcc', hchain'⟩ := hchain
    have hrec := ih c' (process_csv s path (some c'))
      (tracks_step s path c c' hs hcc') hchain'
    simpa [List.getLast?_cons_cons] using hrec

/-- Reduction of `update_progress` for a running roll with a captured
baseline (the `some bp` branch of the match). -/
theorem update_progress_running_some (r : Roll) (cpass cfail bp : Nat)
    (hs : r.state = RollState.running) (hb : r.baseline_pass = some bp) :
    update_progress r cpass cfail
      = if min ((cpass : Int) - (bp : Int)) (r.labels_goal : Int)
            ≥ (r.labels_goal : Int) then
          { r with
            current_progress :=
              min ((cpass : Int) - (bp : Int)) (r.labels_goal : Int),
            state := RollState.completed }
        else
          { r with
            current_progress :=
              min ((cpass : Int) - (bp : Int)) (r.labels_goal : Int) } := by
  unfold update_progress
  rw [if_neg (fun hh => hh hs), hb]

/-- C2: `update_progress` is a no-op unless the roll is Running; the first
call after entering Running (baseline still null) only captures the
snapshot as the baseline, leaving `current_progress` and `state`
unchanged. -/
theorem C2_update_noop_and_baseline_capture (r : Roll) (cpass cfail : Nat) :
    (r.state ≠ RollState.running → update_progress r cpass cfail = r)
    ∧ (r.state = RollState.running → r.baseline_pass = none →
        update_progress r cpass cfail
          = { r with baseline_pass := some cpass,
                     baseline_fail := some cfail }) := by
  constructor
  · intro h
    unfold update_progress
    rw [if_pos h]
  · intro hs hb
    unfold update_progress
    rw [if_neg (fun hh => hh hs), hb]

/-- Witness for C2 at a paused roll and at a freshly started roll. -/
theorem C2_witness :
    update_progress pausedRoll 9 4 = pausedRoll
    ∧ update_progress freshRunningRoll 9 4
      = { freshRunningRoll with baseline_pass := some 9,
                                baseline_fail := some 4 } :=
  ⟨(C2_update_noop_and_baseline_capture pausedRoll 9 4).1 (by decide),
   (C2_update_noop_and_baseline_capture freshRunningRoll 9 4).2 rfl rfl⟩

/-- C3: for a Running roll with captured baseline, `update_progress` sets
`current_progress = min(pass - baseline, labels_goal)`, completes exactly
when `pass - baseline >= labels_goal`, and a Completed roll is unchanged
by every further `update_progress` call. -/
theorem C3_progress_and_completion (r : Roll) (cpass cfail bp : Nat)
    (hs : r.state = RollState.running) (hb : r.baseline_pass = some bp) :
    ((update_progress r cpass cfail).current_progress
        = min ((cpass : Int) - (bp : Int)) (r.labels_goal : Int))
    ∧ ((update_progress r cpass cfail).state = RollState.completed
        ↔ (cpass : Int) - (bp : Int) ≥ (r.labels_goal : Int))
    ∧ (∀ (r2 : Roll) (p2 f2 : Nat), r2.state = RollState.completed →
        update_progress r2 p2 f2 = r2) := by
  have hmin : min ((cpass : Int) - (bp : Int)) (r.labels_goal : Int)
        ≥ (r.labels_goal : Int)
      ↔ (cpass : Int) - (bp : Int) ≥ (r.labels_goal : Int) := by
    rw [ge_iff_le, le_min_iff]
    simp
  refine ⟨?_, ?_, ?_⟩
  · rw [update_progress_running_some r cpass cfail bp hs hb]
    by_cases hge : min ((cpass : Int) - (bp : Int)) (r.labels_goal : Int)
        ≥ (r.labels_goal : Int)
    · rw [if_pos hge]
    · rw [if_neg hge]
  · rw [update_progress_running_some r cpass cfail bp hs hb]
    by_cases hge : min ((cpass : Int) - (bp : Int)) (r.labels_goal : Int)
        ≥ (r.labels_goal : Int)
    · rw [if_pos hge]
      simp only [true_iff, iff_true]
      exact hmin.mp hge
    · rw [if_neg hge]
      constructor
      · intro hcompl
        have hr : r.state = RollState.completed := hcompl
        rw [hs] at hr
        cases hr
      · intro hd
        exact absurd (hmin.mpr hd) hge
  · intro r2 p2 f2 h2
    unfold update_progress
    rw [if_pos (by rw [h2]; intro hh; cases hh)]

/-- Witness for C3 at the Scenario D roll: baseline 2, goal 100,
cumulative pass 102. -/
theorem C3_witness :
    (update_progress runningRoll 102 3).current_progress
        = min (((102 : Nat) : Int) - ((2 : Nat) : Int))
            (runningRoll.labels_goal : Int)
    ∧ ((update_progress runningRoll 102 3).state = RollState.completed
        ↔ ((102 : Nat) : Int) - ((2 : Nat) : Int)
            ≥ (runningRoll.labels_goal : Int)) :=
  ⟨(C3_progress_and_completion runningRoll 102 3 2 rfl rfl).1,
   (C3_progress_and_completion runningRoll 102 3 2 rfl rfl).2.1⟩

/-- C5 counterexample: `start_roll` on a Stopped roll is not rejected — it
transitions the roll to Running (claim says any non-Idle start request is
a no-op). -/
theorem C5_counterexample :
    (start_roll stoppedRoll).state = RollState.running
    ∧ start_roll stoppedRoll ≠ stoppedRoll := by
  decide

/-- C5 amended: `start_roll` is a no-op exactly when the roll is already
Running; from every other state (Idle, Paused, Stopped, Completed) it
transitions to Running and clears both baselines. -/
theorem C5_start_guard (r : Roll) :
    (r.state = RollState.running → start_roll r = r)
    ∧ (r.state ≠ RollState.running →
        start_roll r = { r with state := RollState.running,
                                baseline_pass := none,
                                baseline_fail := none }) := by
  constructor
  · intro h
    unfold start_roll
    rw [if_neg (fun hh => hh h)]
  · intro h
    unfold start_roll
    rw [if_pos h]

/-- Witness for C5 amended: start on Idle runs, start on Running is a
no-op. -/
theorem C5_witness :
    start_roll idleRoll = { idleRoll with state := RollState.running,
                                          baseline_pass := none,
                                          baseline_fail := none }
    ∧ start_roll freshRunningRoll = freshRunningRoll :=
  ⟨(C5_start_guard idleRoll).2 (by decide),
   (C5_start_guard freshRunningRoll).1 rfl⟩

/-- C4 counterexample: with a stored cursor of 2 and a file shrunk to one
row, `process_csv` sets the cursor to 1 (the new total), not 0, and
reprocesses nothing (the pass counter stays 5). -/
theorem C4_counterexample :
    cursorOf (process_csv shrunkState "log.csv" (some [rowP])) "log.csv" = 1
    ∧ cursorOf (process_csv shrunkState "log.csv" (some [rowP])) "log.csv" ≠ 0
    ∧ passOf (process_csv shrunkState "log.csv"
        (some [rowP])).cumulative_counts "P1" = 5 := by
  decide

/-- C4 amended: when the observed row count is strictly below the stored
cursor, the pass reads zero rows — no counter changes — and the cursor is
set to the new (smaller) total rather than 0; no reprocessing happens. -/
theorem C4_shrink_sets_cursor_to_total (s : MonitorState) (path : String)
    (rows : List Row) (hshrink : rows.length < cursorOf s path) :
    cursorOf (process_csv s path (some rows)) path = rows.length
    ∧ (process_csv s path (some rows)).cumulative_counts
        = s.cumulative_counts := by
  refine ⟨cursorOf_process_some s path rows, ?_⟩
  show mergePF s.cumulative_counts
      ((rows.drop ((lookupA (initA s.file_row_counts path 0) path).getD 0)).foldl
        stepRow []) = s.cumulative_counts
  rw [getD_lookupA_initA]
  rw [show (lookupA s.file_row_counts path).getD 0 = cursorOf s path from rfl]
  rw [List.drop_eq_nil_of_le (le_of_lt hshrink)]
  rfl

/-- Witness for C4 amended at the concrete shrunken state. -/
theorem C4_witness :
    cursorOf (process_csv shrunkState "log.csv" (some [rowF])) "log.csv" = 1
    ∧ (process_csv shrunkState "log.csv"
        (some [rowF])).cumulative_counts = shrunkState.cumulative_counts :=
  C4_shrink_sets_cursor_to_total shrunkState "log.csv" [rowF] (by decide)

/-- C7 counterexample: a row whose "Outcome Message" field holds the pass
sentinel (but that has no "Failure Message" field) produces no counter
increment, refuting classification by the "Outcome Message" field. -/
theorem C7_counterexample :
    outcomeMsgSpec outcomeOnlyRow = "Pass (Label)"
    ∧ passOf (process_csv initialState "log.csv"
        (some [outcomeOnlyRow])).cumulative_counts "P1" = 0
    ∧ failOf (process_csv initialState "log.csv"
        (some [outcomeOnlyRow])).cumulative_counts "P1" = 0
    ∧ cursorOf (process_csv initialState "log.csv"
        (some [outcomeOnlyRow])) "log.csv" = 1 := by
  decide

/-- C7 amended: classification is an exact string match of the stripped
"Failure Message" field against the two sentinels; a matching row bumps
exactly the corresponding counter of its printer by 1, any other value
bumps neither, and in all cases the row is consumed (the cursor advances
to the full row count). -/
theorem C7_classification_by_failure_message (r : Row) (nc : PFList)
    (k : String) :
    (failureMsg r = "Pass (Label)" →
        passOf (stepRow nc r) k
          = passOf nc k + (if printerOf r = k then 1 else 0)
        ∧ failOf (stepRow nc r) k = failOf nc k)
    ∧ (failureMsg r = "Fail (Label)" →
        failOf (stepRow nc r) k
          = failOf nc k + (if printerOf r = k then 1 else 0)
        ∧ passOf (stepRow nc r) k = passOf nc k)
    ∧ (failureMsg r ≠ "Pass (Label)" → failureMsg r ≠ "Fail (Label)" →
        passOf (stepRow nc r) k = passOf nc k
        ∧ failOf (stepRow nc r) k = failOf nc k)
    ∧ (∀ (s : MonitorState) (path : String),
        cursorOf (process_csv s path (some [r])) path = 1) := by
  have hstep := pfOf_stepRow nc r k
  refine ⟨?_, ?_, ?_, ?_⟩
  · intro h1
    constructor
    · rw [passOf, hstep, Prod.fst_add, rowDelta_fst]
      by_cases h2 : printerOf r = k <;> simp [h1, h2, passOf]
    · rw [failOf, hstep, Prod.snd_add, rowDelta_snd]
      simp [h1, failOf]
  · intro h1
    have hnp : failureMsg r ≠ "Pass (Label)" := by rw [h1]; decide
    constructor
    · rw [failOf, hstep, Prod.snd_add, rowDelta_snd]
      by_cases h2 : printerOf r = k <;> simp [h1, h2, failOf]
    · rw [passOf, hstep, Prod.fst_add, rowDelta_fst]
      simp [hnp, passOf]
  · intro h1 h2
    constructor
    · rw [passOf, hstep, Prod.fst_add, rowDelta_fst]
      simp [h1, passOf]
    · rw [failOf, hstep, Prod.snd_add, rowDelta_snd]
      simp [h2, failOf]
  · intro s path
    exact cursorOf_process_some s path [r]

/-- Witness for C7 amended: a concrete pass row bumps the pass counter of
its printer and is consumed. -/
theorem C7_witness :
    (passOf (stepRow [] rowP) "P1"
        = passOf ([] : PFList) "P1" + (if printerOf rowP = "P1" then 1 else 0)
      ∧ failOf (stepRow [] rowP) "P1" = failOf ([] : PFList) "P1")
    ∧ cursorOf (process_csv initialState "w7.csv" (some [rowP])) "w7.csv"
        = 1 :=
  ⟨(C7_classification_by_failure_message rowP [] "P1").1 (by decide),
   (C7_classification_by_failure_message rowP [] "P1").2.2.2 initialState
     "w7.csv"⟩

/-- C8: after a successful pass the stored cursor equals the file's total
row count, and a repeated invocation on identical content is a complete
no-op — already-consumed rows (classified or not) are never re-read. -/
theorem C8_cursor_advances_to_total (s : MonitorState) (path : String)
    (rows : List Row) :
    cursorOf (process_csv s path (some rows)) path = rows.length
    ∧ process_csv (process_csv s path (some rows)) path (some rows)
        = process_csv s path (some rows) :=
  ⟨cursorOf_process_some s path rows,
   process_some_noop _ path rows (lookupA_process_some s path rows)⟩

/-- C9: a failed read (exception inside the `try`) leaves the cursor for
that path and all cumulative counters unchanged; if the path already has a
cursor entry the whole monitor state is untouched, so a later notification
retries from the same position. -/
theorem C9_transient_failure_is_atomic (s : MonitorState) (path : String) :
    cursorOf (process_csv s path none) path = cursorOf s path
    ∧ (process_csv s path none).cumulative_counts = s.cumulative_counts
    ∧ ((lookupA s.file_row_counts path).isSome →
        process_csv s path none = s) :=
  ⟨cursorOf_process_none s path, process_none_cumulative s path,
   process_none_of_isSome s path⟩

/-- Witness for C9 at the concrete shrunken state (which has a cursor
entry for "log.csv"). -/
theorem C9_witness :
    cursorOf (process_csv shrunkState "log.csv" none) "log.csv"
        = cursorOf shrunkState "log.csv"
    ∧ process_csv shrunkState "log.csv" none = shrunkState :=
  ⟨(C9_transient_failure_is_atomic shrunkState "log.csv").1,
   (C9_transient_failure_is_atomic shrunkState "log.csv").2.2 (by decide)⟩

/-- C10: the "Printer_1" fallback fires only when the "Printer Name" key
is entirely absent; a present but blank or whitespace-only value is
stripped to the empty string, and such a row creates and increments
counters under the key "" while leaving "Printer_1" untouched. -/
theorem C10_blank_printer_not_fallback (r : Row) (w : String) (nc : PFList)
    (hw : lookupA r "Printer Name" = some w) (hblank : pyStrip w = "") :
    printerOf r = ""
    ∧ (failureMsg r = "Pass (Label)" →
        passOf (stepRow nc r) "" = passOf nc "" + 1
        ∧ passOf (stepRow nc r) "Printer_1" = passOf nc "Printer_1")
    ∧ (lookupA (stepRow nc r) "").isSome = true
    ∧ (∀ r2 : Row, lookupA r2 "Printer Name" = none →
        printerOf r2 = "Printer_1") := by
  have hpr : printerOf r = "" := by
    unfold printerOf
    rw [hw]
    exact hblank
  refine ⟨hpr, ?_, ?_, ?_⟩
  · intro h1
    have hstep0 := pfOf_stepRow nc r ""
    have hstep1 := pfOf_stepRow nc r "Printer_1"
    constructor
    · rw [passOf, hstep0, Prod.fst_add, rowDelta_fst]
      simp [hpr, h1, passOf]
    · rw [passOf, hstep1, Prod.fst_add, rowDelta_fst]
      have : printerOf r ≠ "Printer_1" := by rw [hpr]; decide
      simp [this, passOf]
  · have := lookupA_stepRow_isSome nc r
    rwa [hpr] at this
  · intro r2 h2
    unfold printerOf
    rw [h2]
    decide

/-- Witness for C10 at a row with a whitespace-only "Printer Name". -/
theorem C10_witness :
    printerOf blankPrinterRow = ""
    ∧ (passOf (stepRow [] blankPrinterRow) ""
        = passOf ([] : PFList) "" + 1
      ∧ passOf (stepRow [] blankPrinterRow) "Printer_1"
        = passOf ([] : PFList) "Printer_1")
    ∧ (lookupA (stepRow [] blankPrinterRow) "").isSome = true :=
  ⟨(C10_blank_printer_not_fallback blankPrinterRow "   " [] rfl
      (by decide)).1,
   (C10_blank_printer_not_fallback blankPrinterRow "   " [] rfl
      (by decide)).2.1 rfl,
   (C10_blank_printer_not_fallback blankPrinterRow "   " [] rfl
      (by decide)).2.2.1⟩

/-- Evaluation `total_rolls 250 100 = 3`: the Scenario D roll count. -/
theorem total_rolls_250_100 : total_rolls 250 100 = 3 := by
  unfold total_rolls
  rw [Int.ceil_eq_iff]
  constructor <;> norm_num

/-- C6 counterexample: every materialized roll gets the full
labels-per-roll value as its goal — for quantity 250 and 100 labels per
roll the goals are (100, 100, 100), not the claimed (100, 100, 50). -/
theorem C6_counterexample :
    (make_rolls 1 250 100 "P1").map (fun r => r.labels_goal)
        = [100, 100, 100]
    ∧ (make_rolls 1 250 100 "P1").map (fun r => r.labels_goal)
        ≠ [100, 100, 50] := by
  constructor <;>
    · simp only [make_rolls, total_rolls_250_100]
      decide

/-- The value `total_rolls` agrees with the ceiling-division formula whenever
labels-per-roll is positive. -/
theorem total_rolls_eq_ceil_div (q l : Nat) (hl : 0 < l) :
    total_rolls q l = (((q + l - 1) / l : Nat) : Int) := by
  unfold total_rolls
  rw [Int.ceil_eq_iff]
  have hd : l * ((q + l - 1) / l) + (q + l - 1) % l = q + l - 1 :=
    Nat.div_add_mod _ _
  have hm : (q + l - 1) % l < l := Nat.mod_lt _ hl
  have h1 : l * ((q + l - 1) / l) < q + l := by omega
  have h2 : q ≤ l * ((q + l - 1) / l) := by omega
  have hql : (0 : ℚ) < (l : ℚ) := by exact_mod_cast hl
  constructor
  · rw [Int.cast_natCast, lt_div_iff₀ hql, sub_mul, one_mul]
    have h1q : (l : ℚ) * ((q + l - 1) / l : Nat) < (q : ℚ) + (l : ℚ) := by
      exact_mod_cast h1
    nlinarith [h1q]
  · rw [Int.cast_natCast, div_le_iff₀ hql]
    have h2q : (q : ℚ) ≤ (l : ℚ) * ((q + l - 1) / l : Nat) := by
      exact_mod_cast h2
    nlinarith [h2q]

/-- C6 amended: quantity 250 at 100 labels per roll yields exactly 3 rolls
numbered 1..3, but each — including the last — has goal 100 (the code uses
labels-per-roll as every roll's goal); the roll count follows the
ceiling-division formula in general; and roll 1, started with baseline
pass 2, reaches progress 100 and Completed at cumulative pass 102. -/
theorem C6_rolls_and_scenario :
    ((make_rolls 1 250 100 "P1").length = 3
      ∧ (make_rolls 1 250 100 "P1").map (fun r => r.roll_number) = [1, 2, 3]
      ∧ (make_rolls 1 250 100 "P1").map (fun r => r.labels_goal)
          = [100, 100, 100])
    ∧ (∀ q l : Nat, 0 < l →
        total_rolls q l = (((q + l - 1) / l : Nat) : Int))
    ∧ ((update_progress (update_progress
          (start_roll ((make_rolls 1 250 100 "P1").headI)) 2 0)
          102 3).current_progress = 100
      ∧ (update_progress (update_progress
          (start_roll ((make_rolls 1 250 100 "P1").headI)) 2 0)
          102 3).state = RollState.completed) := by
  refine ⟨?_, total_rolls_eq_ceil_div, ?_⟩
  · refine ⟨?_, ?_, ?_⟩ <;>
      · simp only [make_rolls, total_rolls_250_100]
        decide
  · constructor <;>
      · simp only [make_rolls, total_rolls_250_100]
        decide

/-- Witness for C6 amended (the general conjunct instantiated at the
Scenario D job). -/
theorem C6_witness :
    total_rolls 250 100 = (((250 + 100 - 1) / 100 : Nat) : Int) :=
  (C6_rolls_and_scenario).2.1 250 100 (by decide)

/-- C1: over any monotone (append-only, possibly duplicated) sequence of
notifications for one file, every printer's cumulative counters equal the
pass/fail rows of the file's final content counted exactly once, the
cursor equals the final row count, and one more notification with
unchanged content is a complete no-op. -/
theorem C1_ingestion_counts_each_row_once (path : String)
    (contents : List (List Row)) (hne : contents ≠ [])
    (hchain : List.Chain' (fun a b => ∃ t : List Row, a ++ t = b) contents) :
    (∀ k, passOf (runNotifications path contents).cumulative_counts k
        = passRows ((contents.getLast?).getD []) k
      ∧ failOf (runNotifications path contents).cumulative_counts k
        = failRows ((contents.getLast?).getD []) k)
    ∧ cursorOf (runNotifications path contents) path
        = ((contents.getLast?).getD []).length
    ∧ process_csv (runNotifications path contents) path
        (some ((contents.getLast?).getD []))
      = runNotifications path contents := by
  obtain ⟨c, rest, rfl⟩ : ∃ c rest, contents = c :: rest := by
    cases contents with
    | nil => exact absurd rfl hne
    | cons c rest => exact ⟨c, rest, rfl⟩
  have htracks : Tracks (runNotifications path (c :: rest)) path
      (((c :: rest).getLast?).getD []) := by
    have hbase : Tracks (process_csv initialState path (some c)) path c :=
      tracks_first path c
    have hrun := tracks_run path rest c
      (process_csv initialState path (some c)) hbase hchain
    simpa [runNotifications] using hrun
  obtain ⟨hcur, hcnt⟩ := htracks
  refine ⟨?_, ?_, ?_⟩
  · intro k
    have hsum := sum_rowDelta (((c :: rest).getLast?).getD []) k
    constructor
    · rw [passOf, hcnt k, hsum.1]
    · rw [failOf, hcnt k, hsum.2]
  · unfold cursorOf
    rw [hcur]
    rfl
  · exact process_some_noop _ path _ hcur

/-- Witness for C1 on a two-notification run where the file grows from one
row to two. -/
theorem C1_witness :
    passOf (runNotifications "c1.csv"
        [[rowP], [rowP, rowF]]).cumulative_counts "P1"
      = passRows ((([[rowP], [rowP, rowF]] :
          List (List Row)).getLast?).getD []) "P1"
    ∧ cursorOf (runNotifications "c1.csv" [[rowP], [rowP, rowF]]) "c1.csv"
      = ((([[rowP], [rowP, rowF]] : List (List Row)).getLast?).getD
          []).length :=
  ⟨((C1_ingestion_counts_each_row_once "c1.csv" [[rowP], [rowP, rowF]]
      (by decide)
      (by rw [List.chain'_cons]
          exact ⟨⟨[rowF], rfl⟩, List.chain'_singleton _⟩)).1 "P1").1,
   (C1_ingestion_counts_each_row_once "c1.csv" [[rowP], [rowP, rowF]]
      (by decide)
      (by rw [List.chain'_cons]
          exact ⟨⟨[rowF], rfl⟩, List.chain'_singleton _⟩)).2.1⟩

end PrinterApp
